import Mathlib

/-!
Verification of simpleperf/perf_regs.cpp.

A shallow embedding of `simpleperf/perf_regs.cpp`: the process-wide current
architecture, the supported-register mask and the register-name resolver.

* The global `current_arch` is passed explicitly: every function that reads
  it takes it as its first argument, and `SetCurrentArch` returns its new
  value.
* `std::string` is `String`, `size_t` and `uint64_t` are `Nat` (the 64-bit
  operations reduce modulo `2 ^ 64`).
* A failing `CHECK` is the error branch of `Except`, carrying the text of the
  failed condition and the text streamed after it.
-/

namespace PerfRegs

/-! ## Declarations used by the file but made elsewhere -/

/-- Modelled from the spec: the enumeration `ArchType` declared in
`perf_regs.h` (the spec's X86_32, X86_64, ARM32, ARM64, UNSUPPORTED). -/
inductive ArchType where
  | ARCH_X86_32
  | ARCH_X86_64
  | ARCH_ARM
  | ARCH_ARM64
  | ARCH_UNSUPPORTED
  deriving DecidableEq, Repr

open ArchType

/-- Modelled from the spec: the kernel's x86 register numbering
(`enum perf_event_x86_regs`), AX = 0 .. GS = 15, R8 = 16 .. R15 = 23. -/
def PERF_REG_X86_AX : Nat := 0
/-- Modelled from the spec: kernel x86 numbering. -/
def PERF_REG_X86_BX : Nat := 1
/-- Modelled from the spec: kernel x86 numbering. -/
def PERF_REG_X86_CX : Nat := 2
/-- Modelled from the spec: kernel x86 numbering. -/
def PERF_REG_X86_DX : Nat := 3
/-- Modelled from the spec: kernel x86 numbering. -/
def PERF_REG_X86_SI : Nat := 4
/-- Modelled from the spec: kernel x86 numbering. -/
def PERF_REG_X86_DI : Nat := 5
/-- Modelled from the spec: kernel x86 numbering. -/
def PERF_REG_X86_BP : Nat := 6
/-- Modelled from the spec: kernel x86 numbering. -/
def PERF_REG_X86_SP : Nat := 7
/-- Modelled from the spec: kernel x86 numbering. -/
def PERF_REG_X86_IP : Nat := 8
/-- Modelled from the spec: kernel x86 numbering. -/
def PERF_REG_X86_FLAGS : Nat := 9
/-- Modelled from the spec: kernel x86 numbering. -/
def PERF_REG_X86_CS : Nat := 10
/-- Modelled from the spec: kernel x86 numbering. -/
def PERF_REG_X86_SS : Nat := 11
/-- Modelled from the spec: kernel x86 numbering. -/
def PERF_REG_X86_DS : Nat := 12
/-- Modelled from the spec: kernel x86 numbering. -/
def PERF_REG_X86_ES : Nat := 13
/-- Modelled from the spec: kernel x86 numbering. -/
def PERF_REG_X86_FS : Nat := 14
/-- Modelled from the spec: kernel x86 numbering. -/
def PERF_REG_X86_GS : Nat := 15
/-- Modelled from the spec: kernel x86 numbering. -/
def PERF_REG_X86_R8 : Nat := 16
/-- Modelled from the spec: kernel x86 numbering. -/
def PERF_REG_X86_R15 : Nat := 23
/-- Modelled from the spec: the count of 32-bit x86 register slots. -/
def PERF_REG_X86_32_MAX : Nat := PERF_REG_X86_GS + 1
/-- Modelled from the spec: the count of 64-bit x86 register slots. -/
def PERF_REG_X86_64_MAX : Nat := PERF_REG_X86_R15 + 1

/-- Modelled from the spec: the kernel's 32-bit ARM register numbering
(`enum perf_event_arm_regs`), R0 = 0 .. R10 = 10, FP, IP, SP, LR, PC. -/
def PERF_REG_ARM_R0 : Nat := 0
/-- Modelled from the spec: kernel ARM numbering. -/
def PERF_REG_ARM_R10 : Nat := 10
/-- Modelled from the spec: kernel ARM numbering. -/
def PERF_REG_ARM_FP : Nat := 11
/-- Modelled from the spec: kernel ARM numbering. -/
def PERF_REG_ARM_IP : Nat := 12
/-- Modelled from the spec: kernel ARM numbering. -/
def PERF_REG_ARM_SP : Nat := 13
/-- Modelled from the spec: kernel ARM numbering. -/
def PERF_REG_ARM_LR : Nat := 14
/-- Modelled from the spec: kernel ARM numbering. -/
def PERF_REG_ARM_PC : Nat := 15
/-- Modelled from the spec: the count of 32-bit ARM register slots. -/
def PERF_REG_ARM_MAX : Nat := 16

/-- Modelled from the spec: the kernel's 64-bit ARM register numbering
(`enum perf_event_arm64_regs`), X0 = 0 .. X29 = 29, LR, SP, PC. -/
def PERF_REG_ARM64_X0 : Nat := 0
/-- Modelled from the spec: kernel ARM64 numbering. -/
def PERF_REG_ARM64_X29 : Nat := 29
/-- Modelled from the spec: kernel ARM64 numbering. -/
def PERF_REG_ARM64_LR : Nat := 30
/-- Modelled from the spec: kernel ARM64 numbering. -/
def PERF_REG_ARM64_SP : Nat := 31
/-- Modelled from the spec: kernel ARM64 numbering. -/
def PERF_REG_ARM64_PC : Nat := 32
/-- Modelled from the spec: the count of 64-bit ARM register slots. -/
def PERF_REG_ARM64_MAX : Nat := 33

/-- The library call `android::base::StartsWith(s, pre)`: the characters of
`pre` are the first characters of `s`. -/
def StartsWith (s pre : String) : Bool :=
  pre.data.isPrefixOf s.data

/-- The library call `android::base::StringPrintf("r%zu", n)`: the letter r
followed by the decimal digits of `n`. -/
def StringPrintf_r_zu (n : Nat) : String :=
  "r" ++ Nat.repr n

/-! ## 64-bit unsigned arithmetic -/

/-- The modulus of `uint64_t`. -/
def U64 : Nat := 2 ^ 64

/-- The C expression `a << b` on `uint64_t` (for `b < 64`). -/
def shl64 (a b : Nat) : Nat := (a <<< b) % U64

/-- The C expression `a - b` on `uint64_t`. -/
def sub64 (a b : Nat) : Nat := (a % U64 + U64 - b % U64) % U64

/-- The C expression `~a` on `uint64_t`. -/
def not64 (a : Nat) : Nat := U64 - 1 - a % U64

/-- The C expression `a & b` on `uint64_t`. -/
def and64 (a b : Nat) : Nat := (a &&& b) % U64

/-! ## The architecture cell -/

/-- The build targets that `GetBuildArch` distinguishes by preprocessor
symbol; `other` is a build that defines none of them. -/
inductive BuildTarget where
  | i386
  | x86_64
  | aarch64
  | arm
  | other
  deriving DecidableEq, Repr

/-- The function `GetBuildArch`: the `#if` chain over the build target. -/
def GetBuildArch : BuildTarget → ArchType
  | .i386 => ARCH_X86_32
  | .x86_64 => ARCH_X86_64
  | .aarch64 => ARCH_ARM64
  | .arm => ARCH_ARM
  | .other => ARCH_UNSUPPORTED

/-- The function `GetCurrentArch`: reads the global `current_arch`. -/
def GetCurrentArch (current_arch : ArchType) : ArchType :=
  current_arch

/-- What a call of `SetCurrentArch` leaves behind: the returned flag, the
value of the global `current_arch` after the call, and the lines written to
the ERROR log by the call. -/
structure SetCurrentArchResult where
  ret : Bool
  current_arch : ArchType
  errorLog : List String
  deriving DecidableEq, Repr

/-- The function `SetCurrentArch`, started with the global holding
`current_arch`. -/
def SetCurrentArch (current_arch : ArchType) (arch : String) : SetCurrentArchResult :=
  if arch = "x86" then
    ⟨true, ARCH_X86_32, []⟩
  else if arch = "x86_64" then
    ⟨true, ARCH_X86_64, []⟩
  else if arch = "aarch64" then
    ⟨true, ARCH_ARM64, []⟩
  else if StartsWith arch "arm" then
    ⟨true, ARCH_ARM, []⟩
  else
    ⟨false, current_arch, ["unsupported arch: " ++ arch]⟩

/-! ## The supported-register mask -/

/-- The function `GetSupportedRegMask`, a `uint64_t`. -/
def GetSupportedRegMask (current_arch : ArchType) : Nat :=
  match GetCurrentArch current_arch with
  | ARCH_X86_32 => sub64 (shl64 1 PERF_REG_X86_32_MAX) 1
  | ARCH_X86_64 =>
    and64 (and64 (and64 (and64 (sub64 (shl64 1 PERF_REG_X86_64_MAX) 1)
      (not64 (shl64 1 PERF_REG_X86_DS)))
      (not64 (shl64 1 PERF_REG_X86_ES)))
      (not64 (shl64 1 PERF_REG_X86_FS)))
      (not64 (shl64 1 PERF_REG_X86_GS))
  | ARCH_ARM => sub64 (shl64 1 PERF_REG_ARM_MAX) 1
  | ARCH_ARM64 => sub64 (shl64 1 PERF_REG_ARM64_MAX) 1
  | ARCH_UNSUPPORTED => 0

/-! ## Register names -/

/-- The table `x86_reg_map`. -/
def x86_reg_map : List (Nat × String) :=
  [(PERF_REG_X86_AX, "ax"), (PERF_REG_X86_BX, "bx"), (PERF_REG_X86_CX, "cx"),
   (PERF_REG_X86_DX, "dx"), (PERF_REG_X86_SI, "si"), (PERF_REG_X86_DI, "di"),
   (PERF_REG_X86_BP, "bp"), (PERF_REG_X86_SP, "sp"), (PERF_REG_X86_IP, "ip"),
   (PERF_REG_X86_FLAGS, "flags"), (PERF_REG_X86_CS, "cs"), (PERF_REG_X86_SS, "ss"),
   (PERF_REG_X86_DS, "ds"), (PERF_REG_X86_ES, "es"), (PERF_REG_X86_FS, "fs"),
   (PERF_REG_X86_GS, "gs")]

/-- The table `arm_reg_map`. -/
def arm_reg_map : List (Nat × String) :=
  [(PERF_REG_ARM_FP, "fp"), (PERF_REG_ARM_IP, "ip"), (PERF_REG_ARM_SP, "sp"),
   (PERF_REG_ARM_LR, "lr"), (PERF_REG_ARM_PC, "pc")]

/-- The table `arm64_reg_map`. -/
def arm64_reg_map : List (Nat × String) :=
  [(PERF_REG_ARM64_LR, "lr"), (PERF_REG_ARM64_SP, "sp"), (PERF_REG_ARM64_PC, "pc")]

/-- The member call `map.find(reg)`: the name stored under the key, if any. -/
def find (map : List (Nat × String)) (reg : Nat) : Option String :=
  map.lookup reg

/-- A `CHECK` that failed: the text of the condition that did not hold and
the text the call site streams after it. The process aborts with both. -/
structure CheckFailure where
  condition : String
  message : String
  deriving DecidableEq, Repr

/-- The statements `auto it = map.find(reg); CHECK(it != map.end()) <<
"unknown reg " << reg; return it->second;` for the table called `mapName`. -/
def lookupOrAbort (mapName : String) (map : List (Nat × String)) (reg : Nat) :
    Except CheckFailure String :=
  match find map reg with
  | some name => .ok name
  | none => .error ⟨"it != " ++ mapName ++ ".end()", "unknown reg " ++ Nat.repr reg⟩

/-- The body of `case ARCH_X86_32` in `GetRegName`, which `case ARCH_X86_64`
runs into when its range test fails. -/
def GetRegName_X86_32 (reg : Nat) : Except CheckFailure String :=
  lookupOrAbort "x86_reg_map" x86_reg_map reg

/-- The function `GetRegName`: the name of register `reg` under the current
architecture, or the failed `CHECK`. -/
def GetRegName (current_arch : ArchType) (reg : Nat) : Except CheckFailure String :=
  match GetCurrentArch current_arch with
  | ARCH_X86_64 =>
    if reg ≥ PERF_REG_X86_R8 ∧ reg ≤ PERF_REG_X86_R15 then
      .ok (StringPrintf_r_zu (reg - PERF_REG_X86_R8 + 8))
    else
      GetRegName_X86_32 reg
  | ARCH_X86_32 => GetRegName_X86_32 reg
  | ARCH_ARM =>
    if reg ≥ PERF_REG_ARM_R0 ∧ reg ≤ PERF_REG_ARM_R10 then
      .ok (StringPrintf_r_zu (reg - PERF_REG_ARM_R0))
    else
      lookupOrAbort "arm_reg_map" arm_reg_map reg
  | ARCH_ARM64 =>
    if reg ≥ PERF_REG_ARM64_X0 ∧ reg ≤ PERF_REG_ARM64_X29 then
      .ok (StringPrintf_r_zu (reg - PERF_REG_ARM64_X0))
    else
      lookupOrAbort "arm64_reg_map" arm64_reg_map reg
  | ARCH_UNSUPPORTED => .ok "unknown"

/-- The range test that `GetRegName` makes first under each architecture:
R8..R15 under X86_64, R0..R10 under ARM, X0..X29 under ARM64; the X86_32 and
UNSUPPORTED cases make none. -/
def inNumericRange (current_arch : ArchType) (reg : Nat) : Bool :=
  match current_arch with
  | ARCH_X86_64 => decide (reg ≥ PERF_REG_X86_R8 ∧ reg ≤ PERF_REG_X86_R15)
  | ARCH_ARM => decide (reg ≥ PERF_REG_ARM_R0 ∧ reg ≤ PERF_REG_ARM_R10)
  | ARCH_ARM64 => decide (reg ≥ PERF_REG_ARM64_X0 ∧ reg ≤ PERF_REG_ARM64_X29)
  | ARCH_X86_32 => false
  | ARCH_UNSUPPORTED => false

/-- The number that `GetRegName` prints after the letter r when the range
test of the architecture holds: `reg - PERF_REG_X86_R8 + 8` under X86_64,
`reg - PERF_REG_ARM_R0` under ARM, `reg - PERF_REG_ARM64_X0` under ARM64; the
X86_32 and UNSUPPORTED cases print no number. -/
def rangeRegNumber (current_arch : ArchType) (reg : Nat) : Nat :=
  match current_arch with
  | ARCH_X86_64 => reg - PERF_REG_X86_R8 + 8
  | ARCH_ARM => reg - PERF_REG_ARM_R0
  | ARCH_ARM64 => reg - PERF_REG_ARM64_X0
  | ARCH_X86_32 => 0
  | ARCH_UNSUPPORTED => 0

/-- The static table that `GetRegName` consults under each architecture;
the UNSUPPORTED case consults none. -/
def regMapOf (current_arch : ArchType) : List (Nat × String) :=
  match current_arch with
  | ARCH_X86_32 => x86_reg_map
  | ARCH_X86_64 => x86_reg_map
  | ARCH_ARM => arm_reg_map
  | ARCH_ARM64 => arm64_reg_map
  | ARCH_UNSUPPORTED => []

/-- The keys of a name table. -/
def keysOf (map : List (Nat × String)) : List Nat :=
  map.map Prod.fst

/-- The count of register slots the kernel defines for the architecture,
the bound used by `GetSupportedRegMask`. -/
def maxDefinedIndex (current_arch : ArchType) : Nat :=
  match current_arch with
  | ARCH_X86_32 => PERF_REG_X86_32_MAX
  | ARCH_X86_64 => PERF_REG_X86_64_MAX
  | ARCH_ARM => PERF_REG_ARM_MAX
  | ARCH_ARM64 => PERF_REG_ARM64_MAX
  | ARCH_UNSUPPORTED => 0

/-- A run of calls `SetCurrentArch(s)` for the strings of `calls`, in order,
started with the global holding `current_arch`: the value of the global after
the last call. -/
def SetCurrentArch_calls (current_arch : ArchType) (calls : List String) : ArchType :=
  calls.foldl (fun a s => (SetCurrentArch a s).current_arch) current_arch

/-- The table of recognized names in the words of the specification: "x86"
is X86_32, "x86_64" is X86_64, "aarch64" is ARM64, any value beginning with
"arm" (but not exactly "aarch64") is ARM32; no other value is recognized. -/
def specMappedArch (name : String) : Option ArchType :=
  if name = "x86" then some ARCH_X86_32
  else if name = "x86_64" then some ARCH_X86_64
  else if name = "aarch64" then some ARCH_ARM64
  else if StartsWith name "arm" = true ∧ name ≠ "aarch64" then some ARCH_ARM
  else none

/-! ## Selecting the architecture -/

/-- A name that starts with "arm" is none of the three exact names. -/
theorem StartsWith_arm_ne (s : String) (h : StartsWith s "arm" = true) :
    s ≠ "x86" ∧ s ≠ "x86_64" ∧ s ≠ "aarch64" := by
  refine ⟨?_, ?_, ?_⟩ <;> intro e <;> subst e <;> revert h <;> decide

/-- C1: for every string that is exactly "x86", "x86_64" or "aarch64", or
that starts with "arm", and every prior architecture, SetCurrentArch returns
true (and logs nothing) and GetCurrentArch afterwards returns the mapped
architecture: X86_32, X86_64, ARM64, and ARM32 for the "arm" names. -/
theorem SetCurrentArch_recognized (a : ArchType) (s : String)
    (h : s = "x86" ∨ s = "x86_64" ∨ s = "aarch64" ∨ StartsWith s "arm" = true) :
    (SetCurrentArch a s).ret = true ∧ (SetCurrentArch a s).errorLog = [] ∧
    (s = "x86" → GetCurrentArch (SetCurrentArch a s).current_arch = ARCH_X86_32) ∧
    (s = "x86_64" → GetCurrentArch (SetCurrentArch a s).current_arch = ARCH_X86_64) ∧
    (s = "aarch64" → GetCurrentArch (SetCurrentArch a s).current_arch = ARCH_ARM64) ∧
    (StartsWith s "arm" = true →
      GetCurrentArch (SetCurrentArch a s).current_arch = ARCH_ARM) := by
  rcases h with h | h | h | h
  · subst h; cases a <;> decide
  · subst h; cases a <;> decide
  · subst h; cases a <;> decide
  · obtain ⟨h1, h2, h3⟩ := StartsWith_arm_ne s h
    simp [SetCurrentArch, GetCurrentArch, h, h1, h2, h3]

/-- C1 at "x86", "x86_64", "aarch64", "arm" and "armv7", from an
unsupported prior architecture. -/
theorem SetCurrentArch_recognized_witness :
    GetCurrentArch (SetCurrentArch ARCH_UNSUPPORTED "x86").current_arch = ARCH_X86_32 ∧
    GetCurrentArch (SetCurrentArch ARCH_UNSUPPORTED "x86_64").current_arch = ARCH_X86_64 ∧
    GetCurrentArch (SetCurrentArch ARCH_UNSUPPORTED "aarch64").current_arch = ARCH_ARM64 ∧
    GetCurrentArch (SetCurrentArch ARCH_UNSUPPORTED "arm").current_arch = ARCH_ARM ∧
    GetCurrentArch (SetCurrentArch ARCH_UNSUPPORTED "armv7").current_arch = ARCH_ARM ∧
    (SetCurrentArch ARCH_UNSUPPORTED "armv7").ret = true :=
  ⟨(SetCurrentArch_recognized ARCH_UNSUPPORTED "x86" (by decide)).2.2.1 rfl,
   (SetCurrentArch_recognized ARCH_UNSUPPORTED "x86_64" (by decide)).2.2.2.1 rfl,
   (SetCurrentArch_recognized ARCH_UNSUPPORTED "aarch64" (by decide)).2.2.2.2.1 rfl,
   (SetCurrentArch_recognized ARCH_UNSUPPORTED "arm" (by decide)).2.2.2.2.2 (by decide),
   (SetCurrentArch_recognized ARCH_UNSUPPORTED "armv7" (by decide)).2.2.2.2.2 (by decide),
   (SetCurrentArch_recognized ARCH_UNSUPPORTED "armv7" (by decide)).1⟩

/-- C2: for every string that is none of "x86", "x86_64", "aarch64" and does
not start with "arm", and every prior architecture a, SetCurrentArch returns
false, GetCurrentArch afterwards still returns a, and the one line written to
the ERROR log carries the offending string. -/
theorem SetCurrentArch_unrecognized (a : ArchType) (s : String)
    (h1 : s ≠ "x86") (h2 : s ≠ "x86_64") (h3 : s ≠ "aarch64")
    (h4 : StartsWith s "arm" = false) :
    (SetCurrentArch a s).ret = false ∧
    GetCurrentArch (SetCurrentArch a s).current_arch = GetCurrentArch a ∧
    (SetCurrentArch a s).errorLog = ["unsupported arch: " ++ s] := by
  simp [SetCurrentArch, GetCurrentArch, h1, h2, h3, h4]

/-- C2 at "mips", "", "ARM", "x86_64abc" and "X86", from a prior ARM64. -/
theorem SetCurrentArch_unrecognized_witness :
    ((SetCurrentArch ARCH_ARM64 "mips").ret = false ∧
      GetCurrentArch (SetCurrentArch ARCH_ARM64 "mips").current_arch = GetCurrentArch ARCH_ARM64 ∧
      (SetCurrentArch ARCH_ARM64 "mips").errorLog = ["unsupported arch: " ++ "mips"]) ∧
    (SetCurrentArch ARCH_ARM64 "").ret = false ∧
    (SetCurrentArch ARCH_ARM64 "ARM").ret = false ∧
    (SetCurrentArch ARCH_ARM64 "x86_64abc").ret = false ∧
    (SetCurrentArch ARCH_ARM64 "X86").ret = false :=
  ⟨SetCurrentArch_unrecognized ARCH_ARM64 "mips" (by decide) (by decide) (by decide) (by decide),
   (SetCurrentArch_unrecognized ARCH_ARM64 "" (by decide) (by decide) (by decide) (by decide)).1,
   (SetCurrentArch_unrecognized ARCH_ARM64 "ARM" (by decide) (by decide) (by decide) (by decide)).1,
   (SetCurrentArch_unrecognized ARCH_ARM64 "x86_64abc" (by decide) (by decide) (by decide)
      (by decide)).1,
   (SetCurrentArch_unrecognized ARCH_ARM64 "X86" (by decide) (by decide) (by decide) (by decide)).1⟩

/-! ## The supported-register mask -/

/-- C3: under X86_64 the mask is exactly 0xFF0FFF, and bit i of it is set if
and only if i is below PERF_REG_X86_64_MAX and is none of the DS, ES, FS, GS
slots. -/
theorem GetSupportedRegMask_X86_64 :
    GetSupportedRegMask ARCH_X86_64 = 0xFF0FFF ∧
    GetSupportedRegMask ARCH_X86_64 < 2 ^ 64 ∧
    ∀ i : Nat, (GetSupportedRegMask ARCH_X86_64).testBit i = true ↔
      (i < PERF_REG_X86_64_MAX ∧ i ≠ PERF_REG_X86_DS ∧ i ≠ PERF_REG_X86_ES ∧
        i ≠ PERF_REG_X86_FS ∧ i ≠ PERF_REG_X86_GS) := by
  have hv : GetSupportedRegMask ARCH_X86_64 = 0xFF0FFF := by decide
  refine ⟨hv, by rw [hv]; decide, ?_⟩
  intro i
  rw [hv]
  by_cases hi : i < 24
  · interval_cases i <;> decide
  · have hlt : (0xFF0FFF : Nat) < 2 ^ i :=
      lt_of_lt_of_le (by decide : (0xFF0FFF : Nat) < 2 ^ 24)
        (Nat.pow_le_pow_right (by decide) (by omega))
    rw [Nat.testBit_lt_two_pow hlt]
    have : PERF_REG_X86_64_MAX = 24 := rfl
    simp only [this]
    constructor
    · intro h; cases h
    · intro h; exact absurd h.1 hi

/-- C4: under X86_32, ARM32 and ARM64 the mask is 2^N - 1 for the
architecture's slot count N (0xFFFF, 0xFFFF, 0x1FFFFFFFF, each below 2^64),
so bit i is set if and only if i < N; the X86_32 mask has the DS, ES, FS and
GS bits set; under UNSUPPORTED the mask is 0. -/
theorem GetSupportedRegMask_full_range :
    (GetSupportedRegMask ARCH_X86_32 = 2 ^ PERF_REG_X86_32_MAX - 1 ∧
      GetSupportedRegMask ARCH_X86_32 = 0xFFFF ∧ PERF_REG_X86_32_MAX = 16 ∧
      ∀ i : Nat, (GetSupportedRegMask ARCH_X86_32).testBit i = true ↔
        i < PERF_REG_X86_32_MAX) ∧
    (GetSupportedRegMask ARCH_ARM = 2 ^ PERF_REG_ARM_MAX - 1 ∧
      GetSupportedRegMask ARCH_ARM = 0xFFFF ∧ PERF_REG_ARM_MAX = 16 ∧
      ∀ i : Nat, (GetSupportedRegMask ARCH_ARM).testBit i = true ↔
        i < PERF_REG_ARM_MAX) ∧
    (GetSupportedRegMask ARCH_ARM64 = 2 ^ PERF_REG_ARM64_MAX - 1 ∧
      GetSupportedRegMask ARCH_ARM64 = 0x1FFFFFFFF ∧ PERF_REG_ARM64_MAX = 33 ∧
      ∀ i : Nat, (GetSupportedRegMask ARCH_ARM64).testBit i = true ↔
        i < PERF_REG_ARM64_MAX) ∧
    (GetSupportedRegMask ARCH_X86_32 < 2 ^ 64 ∧ GetSupportedRegMask ARCH_ARM < 2 ^ 64 ∧
      GetSupportedRegMask ARCH_ARM64 < 2 ^ 64) ∧
    ((GetSupportedRegMask ARCH_X86_32).testBit PERF_REG_X86_DS = true ∧
      (GetSupportedRegMask ARCH_X86_32).testBit PERF_REG_X86_ES = true ∧
      (GetSupportedRegMask ARCH_X86_32).testBit PERF_REG_X86_FS = true ∧
      (GetSupportedRegMask ARCH_X86_32).testBit PERF_REG_X86_GS = true) ∧
    GetSupportedRegMask ARCH_UNSUPPORTED = 0 := by
  have h1 : GetSupportedRegMask ARCH_X86_32 = 2 ^ PERF_REG_X86_32_MAX - 1 := by decide
  have h2 : GetSupportedRegMask ARCH_ARM = 2 ^ PERF_REG_ARM_MAX - 1 := by decide
  have h3 : GetSupportedRegMask ARCH_ARM64 = 2 ^ PERF_REG_ARM64_MAX - 1 := by decide
  refine ⟨⟨h1, by decide, rfl, ?_⟩, ⟨h2, by decide, rfl, ?_⟩, ⟨h3, by decide, rfl, ?_⟩,
    by decide, by decide, by decide⟩
  · intro i; rw [h1, Nat.testBit_two_pow_sub_one]; simp
  · intro i; rw [h2, Nat.testBit_two_pow_sub_one]; simp
  · intro i; rw [h3, Nat.testBit_two_pow_sub_one]; simp

/-! ## Register names: coverage and failure -/

/-- A key that is absent from a table is not found in it. -/
theorem find_eq_none_of_not_key (map : List (Nat × String)) (reg : Nat)
    (h : reg ∉ keysOf map) : find map reg = none := by
  unfold find
  rw [List.lookup_eq_none_iff]
  intro p hp
  have hne : reg ≠ p.1 := fun e => h (by
    unfold keysOf
    exact List.mem_map.mpr ⟨p, hp, e.symm⟩)
  simpa using hne

/-- Below the architecture's slot count an index is in the numeric range or
is a key of the table, and not both. -/
theorem range_xor_key (a : ArchType) (i : Nat) (hi : i < maxDefinedIndex a) :
    (inNumericRange a i = true ∧ i ∉ keysOf (regMapOf a)) ∨
    (inNumericRange a i = false ∧ i ∈ keysOf (regMapOf a)) := by
  cases a
  · have h : i < 16 := hi
    interval_cases i <;> decide
  · have h : i < 24 := hi
    interval_cases i <;> decide
  · have h : i < 16 := hi
    interval_cases i <;> decide
  · have h : i < 33 := hi
    interval_cases i <;> decide
  · exact absurd hi (Nat.not_lt_zero i)

/-- Below the architecture's slot count `GetRegName` returns a name. -/
theorem GetRegName_ok_below_max (a : ArchType) (i : Nat) (hi : i < maxDefinedIndex a) :
    ∃ name, GetRegName a i = .ok name := by
  cases a
  · have h : i < 16 := hi
    interval_cases i <;> exact ⟨_, rfl⟩
  · have h : i < 24 := hi
    interval_cases i <;> exact ⟨_, rfl⟩
  · have h : i < 16 := hi
    interval_cases i <;> exact ⟨_, rfl⟩
  · have h : i < 33 := hi
    interval_cases i <;> exact ⟨_, rfl⟩
  · exact absurd hi (Nat.not_lt_zero i)

/-- From the slot count on, an index is neither in the numeric range nor a
key of the table. -/
theorem not_range_not_key_of_max_le (a : ArchType) (i : Nat) (hi : maxDefinedIndex a ≤ i) :
    inNumericRange a i = false ∧ i ∉ keysOf (regMapOf a) := by
  cases a
  · have h : 16 ≤ i := hi
    simp [inNumericRange, regMapOf, keysOf, x86_reg_map, PERF_REG_X86_AX, PERF_REG_X86_BX,
      PERF_REG_X86_CX, PERF_REG_X86_DX, PERF_REG_X86_SI, PERF_REG_X86_DI, PERF_REG_X86_BP,
      PERF_REG_X86_SP, PERF_REG_X86_IP, PERF_REG_X86_FLAGS, PERF_REG_X86_CS, PERF_REG_X86_SS,
      PERF_REG_X86_DS, PERF_REG_X86_ES, PERF_REG_X86_FS, PERF_REG_X86_GS]
    omega
  · have h : 24 ≤ i := hi
    simp [inNumericRange, regMapOf, keysOf, x86_reg_map, PERF_REG_X86_AX, PERF_REG_X86_BX,
      PERF_REG_X86_CX, PERF_REG_X86_DX, PERF_REG_X86_SI, PERF_REG_X86_DI, PERF_REG_X86_BP,
      PERF_REG_X86_SP, PERF_REG_X86_IP, PERF_REG_X86_FLAGS, PERF_REG_X86_CS, PERF_REG_X86_SS,
      PERF_REG_X86_DS, PERF_REG_X86_ES, PERF_REG_X86_FS, PERF_REG_X86_GS, PERF_REG_X86_R8,
      PERF_REG_X86_R15]
    omega
  · have h : 16 ≤ i := hi
    simp [inNumericRange, regMapOf, keysOf, arm_reg_map, PERF_REG_ARM_FP, PERF_REG_ARM_IP,
      PERF_REG_ARM_SP, PERF_REG_ARM_LR, PERF_REG_ARM_PC, PERF_REG_ARM_R0, PERF_REG_ARM_R10]
    omega
  · have h : 33 ≤ i := hi
    simp [inNumericRange, regMapOf, keysOf, arm64_reg_map, PERF_REG_ARM64_LR,
      PERF_REG_ARM64_SP, PERF_REG_ARM64_PC, PERF_REG_ARM64_X0, PERF_REG_ARM64_X29]
    omega
  · simp [inNumericRange, regMapOf, keysOf]

/-- Outside the numeric range and outside the table, `GetRegName` ends in
the failed `CHECK` of the table consulted. -/
theorem GetRegName_error_of_unresolved (a : ArchType) (i : Nat) (ha : a ≠ ARCH_UNSUPPORTED)
    (hr : inNumericRange a i = false) (hk : i ∉ keysOf (regMapOf a)) :
    ∃ f, GetRegName a i = .error f ∧ f.message = "unknown reg " ++ Nat.repr i ∧
      f.condition ∈ ["it != x86_reg_map.end()", "it != arm_reg_map.end()",
        "it != arm64_reg_map.end()"] := by
  have hf := find_eq_none_of_not_key (regMapOf a) i hk
  cases a
  · refine ⟨⟨"it != " ++ "x86_reg_map" ++ ".end()", "unknown reg " ++ Nat.repr i⟩, ?_, rfl,
      (by decide : ("it != " ++ "x86_reg_map" ++ ".end()" : String) ∈
        ["it != x86_reg_map.end()", "it != arm_reg_map.end()", "it != arm64_reg_map.end()"])⟩
    simp only [GetRegName, GetCurrentArch, GetRegName_X86_32, lookupOrAbort,
      show find x86_reg_map i = none from hf]
  · have hr2 : ¬ (i ≥ PERF_REG_X86_R8 ∧ i ≤ PERF_REG_X86_R15) := by
      simpa [inNumericRange] using hr
    refine ⟨⟨"it != " ++ "x86_reg_map" ++ ".end()", "unknown reg " ++ Nat.repr i⟩, ?_, rfl,
      (by decide : ("it != " ++ "x86_reg_map" ++ ".end()" : String) ∈
        ["it != x86_reg_map.end()", "it != arm_reg_map.end()", "it != arm64_reg_map.end()"])⟩
    simp only [GetRegName, GetCurrentArch, GetRegName_X86_32, lookupOrAbort,
      show find x86_reg_map i = none from hf, if_neg hr2]
  · have hr2 : ¬ (i ≥ PERF_REG_ARM_R0 ∧ i ≤ PERF_REG_ARM_R10) := by
      simpa [inNumericRange] using hr
    refine ⟨⟨"it != " ++ "arm_reg_map" ++ ".end()", "unknown reg " ++ Nat.repr i⟩, ?_, rfl,
      (by decide : ("it != " ++ "arm_reg_map" ++ ".end()" : String) ∈
        ["it != x86_reg_map.end()", "it != arm_reg_map.end()", "it != arm64_reg_map.end()"])⟩
    simp only [GetRegName, GetCurrentArch, lookupOrAbort,
      show find arm_reg_map i = none from hf, if_neg hr2]
  · have hr2 : ¬ (i ≥ PERF_REG_ARM64_X0 ∧ i ≤ PERF_REG_ARM64_X29) := by
      simpa [inNumericRange] using hr
    refine ⟨⟨"it != " ++ "arm64_reg_map" ++ ".end()", "unknown reg " ++ Nat.repr i⟩, ?_, rfl,
      (by decide : ("it != " ++ "arm64_reg_map" ++ ".end()" : String) ∈
        ["it != x86_reg_map.end()", "it != arm_reg_map.end()", "it != arm64_reg_map.end()"])⟩
    simp only [GetRegName, GetCurrentArch, lookupOrAbort,
      show find arm64_reg_map i = none from hf, if_neg hr2]
  · exact absurd rfl ha

/-- An index on which `GetRegName` fails is at or past the slot count of an
architecture other than UNSUPPORTED. -/
theorem max_le_of_GetRegName_error (a : ArchType) (i : Nat) (f : CheckFailure)
    (h : GetRegName a i = .error f) : a ≠ ARCH_UNSUPPORTED ∧ maxDefinedIndex a ≤ i := by
  constructor
  · intro e
    subst e
    cases h
  · by_contra hlt
    obtain ⟨name, hn⟩ := GetRegName_ok_below_max a i (Nat.lt_of_not_le hlt)
    rw [hn] at h
    cases h

/-- C5: for each of X86_32, X86_64, ARM32, ARM64 (slot counts 16, 24, 16, 33)
and every index below the architecture's slot count, exactly one of the two
rules resolves the index and GetRegName returns the name that rule gives:
either the index is in the architecture's numeric range and is no key of its
name table, and GetRegName returns "r" followed by the range number; or the
index is outside the numeric range and is a key of the name table, and
GetRegName returns the name stored under it. No table has a key twice. -/
theorem GetRegName_resolves_exactly_one (a : ArchType) (i : Nat)
    (ha : a ≠ ARCH_UNSUPPORTED) (hi : i < maxDefinedIndex a) :
    ((inNumericRange a i = true ∧ i ∉ keysOf (regMapOf a) ∧
        GetRegName a i = .ok (StringPrintf_r_zu (rangeRegNumber a i))) ∨
      (inNumericRange a i = false ∧ i ∈ keysOf (regMapOf a) ∧
        ∃ name, find (regMapOf a) i = some name ∧ (i, name) ∈ regMapOf a ∧
          GetRegName a i = .ok name)) ∧
    (∃ name, GetRegName a i = .ok name) ∧
    (keysOf (regMapOf a)).Nodup ∧
    (maxDefinedIndex ARCH_X86_32 = 16 ∧ maxDefinedIndex ARCH_X86_64 = 24 ∧
      maxDefinedIndex ARCH_ARM = 16 ∧ maxDefinedIndex ARCH_ARM64 = 33) := by
  refine ⟨?_, GetRegName_ok_below_max a i hi, ?_, rfl, rfl, rfl, rfl⟩
  · cases a
    · have h : i < 16 := hi
      interval_cases i <;> exact Or.inr ⟨by decide, by decide, _, rfl, by decide, rfl⟩
    · have h : i < 24 := hi
      interval_cases i <;> first
        | exact Or.inl ⟨by decide, by decide, rfl⟩
        | exact Or.inr ⟨by decide, by decide, _, rfl, by decide, rfl⟩
    · have h : i < 16 := hi
      interval_cases i <;> first
        | exact Or.inl ⟨by decide, by decide, rfl⟩
        | exact Or.inr ⟨by decide, by decide, _, rfl, by decide, rfl⟩
    · have h : i < 33 := hi
      interval_cases i <;> first
        | exact Or.inl ⟨by decide, by decide, rfl⟩
        | exact Or.inr ⟨by decide, by decide, _, rfl, by decide, rfl⟩
    · exact absurd rfl ha
  · cases a <;> decide

/-- C5 at the last slot of X86_64 (a range index, named "r15") and the last
slot of ARM64 (a table index, named "pc"). -/
theorem GetRegName_resolves_exactly_one_witness :
    ((inNumericRange ARCH_X86_64 23 = true ∧ 23 ∉ keysOf (regMapOf ARCH_X86_64) ∧
        GetRegName ARCH_X86_64 23 = .ok "r15") ∨
      (inNumericRange ARCH_X86_64 23 = false ∧ 23 ∈ keysOf (regMapOf ARCH_X86_64) ∧
        ∃ name, find (regMapOf ARCH_X86_64) 23 = some name ∧
          (23, name) ∈ regMapOf ARCH_X86_64 ∧ GetRegName ARCH_X86_64 23 = .ok name)) ∧
    ((inNumericRange ARCH_ARM64 32 = true ∧ 32 ∉ keysOf (regMapOf ARCH_ARM64) ∧
        GetRegName ARCH_ARM64 32 = .ok (StringPrintf_r_zu (rangeRegNumber ARCH_ARM64 32))) ∨
      (inNumericRange ARCH_ARM64 32 = false ∧ 32 ∈ keysOf (regMapOf ARCH_ARM64) ∧
        ∃ name, find (regMapOf ARCH_ARM64) 32 = some name ∧
          (32, name) ∈ regMapOf ARCH_ARM64 ∧ GetRegName ARCH_ARM64 32 = .ok name)) ∧
    GetRegName ARCH_ARM64 32 = .ok "pc" :=
  ⟨(GetRegName_resolves_exactly_one ARCH_X86_64 23 (by decide) (by decide)).1,
   (GetRegName_resolves_exactly_one ARCH_ARM64 32 (by decide) (by decide)).1,
   rfl⟩

/-- C6: for each of X86_32, X86_64, ARM32, ARM64, the indices that are
neither in the numeric range nor keys of the name table are exactly those at
or past the slot count (16, 24, 16, 33), and on each of them GetRegName ends
in the failed CHECK and returns no name, "unknown" included. -/
theorem GetRegName_aborts_when_unresolved (a : ArchType) (i : Nat)
    (ha : a ≠ ARCH_UNSUPPORTED) :
    ((inNumericRange a i = false ∧ i ∉ keysOf (regMapOf a)) ↔ maxDefinedIndex a ≤ i) ∧
    (inNumericRange a i = false → i ∉ keysOf (regMapOf a) →
      (∃ f, GetRegName a i = .error f) ∧ (∀ name, GetRegName a i ≠ .ok name) ∧
        GetRegName a i ≠ .ok "unknown") := by
  refine ⟨⟨?_, not_range_not_key_of_max_le a i⟩, ?_⟩
  · rintro ⟨hr, hk⟩
    by_contra hlt
    rcases range_xor_key a i (Nat.lt_of_not_le hlt) with h | h
    · rw [hr] at h
      exact Bool.noConfusion h.1
    · exact hk h.2
  · intro hr hk
    obtain ⟨f, hf, _⟩ := GetRegName_error_of_unresolved a i ha hr hk
    refine ⟨⟨f, hf⟩, ?_, ?_⟩
    · intro name hn
      rw [hf] at hn
      cases hn
    · intro hn
      rw [hf] at hn
      cases hn

/-- C6 at the first unresolved index of X86_32 (16) and of ARM64 (33). -/
theorem GetRegName_aborts_when_unresolved_witness :
    ((∃ f, GetRegName ARCH_X86_32 16 = .error f) ∧
      (∀ name, GetRegName ARCH_X86_32 16 ≠ .ok name) ∧
      GetRegName ARCH_X86_32 16 ≠ .ok "unknown") ∧
    ((∃ f, GetRegName ARCH_ARM64 33 = .error f) ∧
      (∀ name, GetRegName ARCH_ARM64 33 ≠ .ok name) ∧
      GetRegName ARCH_ARM64 33 ≠ .ok "unknown") :=
  ⟨(GetRegName_aborts_when_unresolved ARCH_X86_32 16 (by decide)).2 (by decide) (by decide),
   (GetRegName_aborts_when_unresolved ARCH_ARM64 33 (by decide)).2 (by decide) (by decide)⟩

/-- C7, refuted as stated: at index 40 the failures under X86_32 and under
X86_64 are one and the same diagnostic, so no reading of a diagnostic gives
back the active architecture. -/
theorem GetRegName_diagnostic_omits_arch :
    GetRegName ARCH_X86_32 40 =
      .error ⟨"it != x86_reg_map.end()", "unknown reg 40"⟩ ∧
    GetRegName ARCH_X86_64 40 =
      .error ⟨"it != x86_reg_map.end()", "unknown reg 40"⟩ ∧
    ¬ ∃ archOf : CheckFailure → ArchType,
        ∀ a i f, GetRegName a i = .error f → archOf f = a := by
  refine ⟨rfl, rfl, ?_⟩
  rintro ⟨archOf, h⟩
  have h1 := h ARCH_X86_32 40 ⟨"it != x86_reg_map.end()", "unknown reg 40"⟩ rfl
  have h2 := h ARCH_X86_64 40 ⟨"it != x86_reg_map.end()", "unknown reg 40"⟩ rfl
  rw [h1] at h2
  cases h2

/-- C7, amended: whenever GetRegName fails at index i, the text streamed into
the diagnostic is "unknown reg " followed by the decimal of i, and the failed
condition names the table consulted (x86_reg_map, arm_reg_map or
arm64_reg_map). -/
theorem GetRegName_diagnostic_has_index (a : ArchType) (i : Nat) (f : CheckFailure)
    (h : GetRegName a i = .error f) :
    f.message = "unknown reg " ++ Nat.repr i ∧
    f.condition ∈ ["it != x86_reg_map.end()", "it != arm_reg_map.end()",
      "it != arm64_reg_map.end()"] := by
  obtain ⟨ha, hi⟩ := max_le_of_GetRegName_error a i f h
  obtain ⟨hr, hk⟩ := not_range_not_key_of_max_le a i hi
  obtain ⟨g, hg, hm, hc⟩ := GetRegName_error_of_unresolved a i ha hr hk
  rw [hg] at h
  cases h
  exact ⟨hm, hc⟩

/-- C7 amended, at index 33 under ARM64. -/
theorem GetRegName_diagnostic_has_index_witness :
    GetRegName ARCH_ARM64 33 = .error ⟨"it != arm64_reg_map.end()", "unknown reg 33"⟩ ∧
    "unknown reg 33" = "unknown reg " ++ Nat.repr 33 :=
  ⟨rfl, (GetRegName_diagnostic_has_index ARCH_ARM64 33
    ⟨"it != arm64_reg_map.end()", "unknown reg 33"⟩ rfl).1⟩

/-! ## Register names: the values -/

/-- C8: under X86_64, GetRegName of PERF_REG_X86_R8 + k for k = 0 .. 7 is "r"
followed by the decimal of 8 + k, that is "r8" .. "r15" in order; of
PERF_REG_X86_AX it is "ax"; of PERF_REG_X86_DS it is "ds", while the DS bit
of GetSupportedRegMask is clear. -/
theorem GetRegName_X86_64_names (k : Nat) (hk : k ≤ 7) :
    GetRegName ARCH_X86_64 (PERF_REG_X86_R8 + k) = .ok ("r" ++ Nat.repr (8 + k)) ∧
    (List.range 8).map (fun k => GetRegName ARCH_X86_64 (PERF_REG_X86_R8 + k)) =
      [.ok "r8", .ok "r9", .ok "r10", .ok "r11", .ok "r12", .ok "r13", .ok "r14",
        .ok "r15"] ∧
    GetRegName ARCH_X86_64 PERF_REG_X86_AX = .ok "ax" ∧
    GetRegName ARCH_X86_64 PERF_REG_X86_DS = .ok "ds" ∧
    (GetSupportedRegMask ARCH_X86_64).testBit PERF_REG_X86_DS = false := by
  refine ⟨?_, rfl, rfl, rfl, by decide⟩
  interval_cases k <;> rfl

/-- C8 at k = 3: register R8 + 3 is named "r11". -/
theorem GetRegName_X86_64_names_witness :
    GetRegName ARCH_X86_64 (PERF_REG_X86_R8 + 3) = .ok "r11" :=
  (GetRegName_X86_64_names 3 (by decide)).1

/-- C9: under ARM32, GetRegName of PERF_REG_ARM_R0 + k for k = 0 .. 10 is "r"
followed by the decimal of k, that is "r0" .. "r10"; of PERF_REG_ARM_FP, IP,
SP, LR, PC it is "fp", "ip", "sp", "lr", "pc". -/
theorem GetRegName_ARM_names (k : Nat) (hk : k ≤ 10) :
    GetRegName ARCH_ARM (PERF_REG_ARM_R0 + k) = .ok ("r" ++ Nat.repr k) ∧
    (List.range 11).map (fun k => GetRegName ARCH_ARM (PERF_REG_ARM_R0 + k)) =
      [.ok "r0", .ok "r1", .ok "r2", .ok "r3", .ok "r4", .ok "r5", .ok "r6", .ok "r7",
        .ok "r8", .ok "r9", .ok "r10"] ∧
    GetRegName ARCH_ARM PERF_REG_ARM_FP = .ok "fp" ∧
    GetRegName ARCH_ARM PERF_REG_ARM_IP = .ok "ip" ∧
    GetRegName ARCH_ARM PERF_REG_ARM_SP = .ok "sp" ∧
    GetRegName ARCH_ARM PERF_REG_ARM_LR = .ok "lr" ∧
    GetRegName ARCH_ARM PERF_REG_ARM_PC = .ok "pc" := by
  refine ⟨?_, rfl, rfl, rfl, rfl, rfl, rfl⟩
  interval_cases k <;> rfl

/-- C9 at k = 10: register R0 + 10 is named "r10". -/
theorem GetRegName_ARM_names_witness :
    GetRegName ARCH_ARM (PERF_REG_ARM_R0 + 10) = .ok "r10" :=
  (GetRegName_ARM_names 10 (by decide)).1

/-- C10: under ARM64, GetRegName of PERF_REG_ARM64_X0 + k for k = 0 .. 29 is
"r" followed by the decimal of k, that is "r0" .. "r29"; of PERF_REG_ARM64_LR,
SP, PC it is "lr", "sp", "pc". -/
theorem GetRegName_ARM64_names (k : Nat) (hk : k ≤ 29) :
    GetRegName ARCH_ARM64 (PERF_REG_ARM64_X0 + k) = .ok ("r" ++ Nat.repr k) ∧
    (List.range 30).map (fun k => GetRegName ARCH_ARM64 (PERF_REG_ARM64_X0 + k)) =
      [.ok "r0", .ok "r1", .ok "r2", .ok "r3", .ok "r4", .ok "r5", .ok "r6", .ok "r7",
        .ok "r8", .ok "r9", .ok "r10", .ok "r11", .ok "r12", .ok "r13", .ok "r14",
        .ok "r15", .ok "r16", .ok "r17", .ok "r18", .ok "r19", .ok "r20", .ok "r21",
        .ok "r22", .ok "r23", .ok "r24", .ok "r25", .ok "r26", .ok "r27", .ok "r28",
        .ok "r29"] ∧
    GetRegName ARCH_ARM64 PERF_REG_ARM64_LR = .ok "lr" ∧
    GetRegName ARCH_ARM64 PERF_REG_ARM64_SP = .ok "sp" ∧
    GetRegName ARCH_ARM64 PERF_REG_ARM64_PC = .ok "pc" := by
  refine ⟨?_, rfl, rfl, rfl, rfl⟩
  interval_cases k <;> rfl

/-- C10 at k = 29: register X0 + 29 is named "r29". -/
theorem GetRegName_ARM64_names_witness :
    GetRegName ARCH_ARM64 (PERF_REG_ARM64_X0 + 29) = .ok "r29" :=
  (GetRegName_ARM64_names 29 (by decide)).1

/-- The value of the mask under each architecture. -/
theorem GetSupportedRegMask_value (a : ArchType) :
    GetSupportedRegMask a =
      match a with
      | ARCH_X86_32 => 2 ^ 16 - 1
      | ARCH_X86_64 => 0xFF0FFF
      | ARCH_ARM => 2 ^ 16 - 1
      | ARCH_ARM64 => 2 ^ 33 - 1
      | ARCH_UNSUPPORTED => 0 := by
  cases a <;> decide

/-- C11: under UNSUPPORTED, GetRegName returns "unknown" for every index (0,
an index past every slot count, and the largest 64-bit index among them) and
never fails. -/
theorem GetRegName_UNSUPPORTED :
    (∀ i : Nat, GetRegName ARCH_UNSUPPORTED i = .ok "unknown") ∧
    (∀ (i : Nat) (f : CheckFailure), GetRegName ARCH_UNSUPPORTED i ≠ .error f) ∧
    GetRegName ARCH_UNSUPPORTED 0 = .ok "unknown" ∧
    GetRegName ARCH_UNSUPPORTED PERF_REG_ARM64_MAX = .ok "unknown" ∧
    GetRegName ARCH_UNSUPPORTED (2 ^ 64 - 1) = .ok "unknown" := by
  refine ⟨fun i => rfl, ?_, rfl, rfl, rfl⟩
  intro i f h
  have h2 : GetRegName ARCH_UNSUPPORTED i = .ok "unknown" := rfl
  rw [h2] at h
  cases h

/-- C12: calling SetCurrentArch twice in succession with the same string
returns the same flag both times and leaves the same architecture as calling
it once; with "x86_64" both calls return true and leave X86_64. -/
theorem SetCurrentArch_idempotent (a : ArchType) (s : String) :
    (SetCurrentArch (SetCurrentArch a s).current_arch s).ret = (SetCurrentArch a s).ret ∧
    GetCurrentArch (SetCurrentArch (SetCurrentArch a s).current_arch s).current_arch =
      GetCurrentArch (SetCurrentArch a s).current_arch ∧
    (SetCurrentArch a "x86_64").ret = true ∧
    (SetCurrentArch (SetCurrentArch a "x86_64").current_arch "x86_64").ret = true ∧
    GetCurrentArch (SetCurrentArch a "x86_64").current_arch = ARCH_X86_64 ∧
    GetCurrentArch (SetCurrentArch (SetCurrentArch a "x86_64").current_arch
      "x86_64").current_arch = ARCH_X86_64 := by
  refine ⟨?_, ?_, rfl, rfl, rfl, rfl⟩
  · simp only [SetCurrentArch]
    split_ifs <;> rfl
  · simp only [SetCurrentArch, GetCurrentArch]
    split_ifs <;> rfl

/-- C14: from every prior architecture, SetCurrentArch("aarch64") returns
true, and afterwards bit i of GetSupportedRegMask is set exactly for
i < PERF_REG_ARM64_MAX, GetRegName(PERF_REG_ARM64_LR) is "lr" and
GetRegName(PERF_REG_ARM64_X0 + 5) is "r5". -/
theorem aarch64_end_to_end (a : ArchType) :
    (SetCurrentArch a "aarch64").ret = true ∧
    (∀ i : Nat, (GetSupportedRegMask (SetCurrentArch a "aarch64").current_arch).testBit i = true
      ↔ i < PERF_REG_ARM64_MAX) ∧
    GetRegName (SetCurrentArch a "aarch64").current_arch PERF_REG_ARM64_LR = .ok "lr" ∧
    GetRegName (SetCurrentArch a "aarch64").current_arch (PERF_REG_ARM64_X0 + 5) = .ok "r5" := by
  have hs : (SetCurrentArch a "aarch64").current_arch = ARCH_ARM64 := rfl
  rw [hs]
  refine ⟨rfl, ?_, rfl, rfl⟩
  intro i
  have hm := GetSupportedRegMask_value ARCH_ARM64
  simp only at hm
  have hmax : PERF_REG_ARM64_MAX = 33 := rfl
  rw [hm, hmax, Nat.testBit_two_pow_sub_one]
  simp

/-- C15: outside R8..R15 GetRegName under X86_64 has the outcome of GetRegName
under X86_32, the same name or the same failure; inside R8..R15 it returns a
name under X86_64 and fails under X86_32. -/
theorem GetRegName_X86_64_falls_through (i : Nat) :
    (¬ (PERF_REG_X86_R8 ≤ i ∧ i ≤ PERF_REG_X86_R15) →
      GetRegName ARCH_X86_64 i = GetRegName ARCH_X86_32 i) ∧
    ((PERF_REG_X86_R8 ≤ i ∧ i ≤ PERF_REG_X86_R15) →
      (∃ name, GetRegName ARCH_X86_64 i = .ok name) ∧
      (∃ f, GetRegName ARCH_X86_32 i = .error f)) := by
  constructor
  · intro h
    have h2 : ¬ (i ≥ PERF_REG_X86_R8 ∧ i ≤ PERF_REG_X86_R15) := h
    simp only [GetRegName, GetCurrentArch, if_neg h2]
  · rintro ⟨h1, h2⟩
    have h3 : 16 ≤ i := h1
    have h4 : i ≤ 23 := h2
    interval_cases i <;> exact ⟨⟨_, rfl⟩, ⟨_, rfl⟩⟩

/-- C15 at index 12 (DS, outside R8..R15) and at index 20 (inside). -/
theorem GetRegName_X86_64_falls_through_witness :
    GetRegName ARCH_X86_64 12 = GetRegName ARCH_X86_32 12 ∧
    ((∃ name, GetRegName ARCH_X86_64 20 = .ok name) ∧
      (∃ f, GetRegName ARCH_X86_32 20 = .error f)) :=
  ⟨(GetRegName_X86_64_falls_through 12).1 (by decide),
   (GetRegName_X86_64_falls_through 20).2 (by decide)⟩

/-- C18: when SetCurrentArch returns true, the architecture it leaves is ARM64
if and only if the string is "aarch64"; "arm64" succeeds and selects ARM32. -/
theorem SetCurrentArch_ARM64_iff_aarch64 (a : ArchType) (s : String)
    (h : (SetCurrentArch a s).ret = true) :
    (GetCurrentArch (SetCurrentArch a s).current_arch = ARCH_ARM64 ↔ s = "aarch64") ∧
    (SetCurrentArch a "arm64").ret = true ∧
    GetCurrentArch (SetCurrentArch a "arm64").current_arch = ARCH_ARM ∧
    GetCurrentArch (SetCurrentArch a "arm64").current_arch ≠ ARCH_ARM64 := by
  have hne : GetCurrentArch (SetCurrentArch a "arm64").current_arch ≠ ARCH_ARM64 := by
    intro e
    have e2 : ARCH_ARM = ARCH_ARM64 := e
    cases e2
  refine ⟨?_, rfl, rfl, hne⟩
  simp only [SetCurrentArch, GetCurrentArch] at h ⊢
  split_ifs at h ⊢ with h1 h2 h3 h4
  · subst h1; decide
  · subst h2; decide
  · simp [h3]
  · simp [h3]

/-- C18 at "aarch64" and at "armv8", from a prior X86_32. -/
theorem SetCurrentArch_ARM64_iff_aarch64_witness :
    (GetCurrentArch (SetCurrentArch ARCH_X86_32 "aarch64").current_arch = ARCH_ARM64 ↔
      "aarch64" = "aarch64") ∧
    (GetCurrentArch (SetCurrentArch ARCH_X86_32 "armv8").current_arch = ARCH_ARM64 ↔
      "armv8" = "aarch64") :=
  ⟨(SetCurrentArch_ARM64_iff_aarch64 ARCH_X86_32 "aarch64" (by decide)).1,
   (SetCurrentArch_ARM64_iff_aarch64 ARCH_X86_32 "armv8" (by decide)).1⟩

/-! ## Runs of SetCurrentArch -/

/-- The flag returned by `SetCurrentArch` says whether the specification's
table recognizes the string. -/
theorem SetCurrentArch_ret_eq (a : ArchType) (s : String) :
    (SetCurrentArch a s).ret = (specMappedArch s).isSome := by
  simp only [SetCurrentArch, specMappedArch]
  split_ifs with h1 h2 h3 h4 h5 h5 <;> first | rfl | skip
  · exact absurd ⟨h4, h3⟩ h5
  · exact absurd h5.1 h4

/-- The architecture left by `SetCurrentArch` is the one the specification's
table maps the string to, and the prior one when it maps it to none. -/
theorem SetCurrentArch_current_arch_eq (a : ArchType) (s : String) :
    (SetCurrentArch a s).current_arch = (specMappedArch s).getD a := by
  simp only [SetCurrentArch, specMappedArch]
  split_ifs with h1 h2 h3 h4 h5 h5 <;> first | rfl | skip
  · exact absurd ⟨h4, h3⟩ h5
  · exact absurd h5.1 h4

/-- A run over a list with one more string at the end. -/
theorem SetCurrentArch_calls_concat (a : ArchType) (calls : List String) (s : String) :
    SetCurrentArch_calls a (calls ++ [s]) =
      (SetCurrentArch (SetCurrentArch_calls a calls) s).current_arch := by
  simp [SetCurrentArch_calls, List.foldl_append]

/-- A run over two lists, one after the other. -/
theorem SetCurrentArch_calls_append (a : ArchType) (l1 l2 : List String) :
    SetCurrentArch_calls a (l1 ++ l2) =
      SetCurrentArch_calls (SetCurrentArch_calls a l1) l2 := by
  simp [SetCurrentArch_calls, List.foldl_append]

/-- A run of unrecognized strings leaves the architecture as it was. -/
theorem SetCurrentArch_calls_unrecognized (a : ArchType) (calls : List String)
    (h : ∀ t ∈ calls, specMappedArch t = none) : SetCurrentArch_calls a calls = a := by
  induction calls generalizing a with
  | nil => rfl
  | cons t rest ih =>
    have ht : specMappedArch t = none := h t (List.mem_cons_self t rest)
    have hstep : (SetCurrentArch a t).current_arch = a := by
      rw [SetCurrentArch_current_arch_eq, ht]
      rfl
    have hrest : ∀ u ∈ rest, specMappedArch u = none :=
      fun u hu => h u (List.mem_cons_of_mem t hu)
    show SetCurrentArch_calls (SetCurrentArch a t).current_arch rest = a
    rw [hstep]
    exact ih a hrest

/-- The architecture after a run is the one mapped from the last recognized
string, and the initial one when there is none. -/
theorem SetCurrentArch_calls_eq (a0 : ArchType) (calls : List String) :
    SetCurrentArch_calls a0 calls = (calls.reverse.findSome? specMappedArch).getD a0 := by
  induction calls using List.reverseRecOn with
  | nil => rfl
  | append_singleton rest s ih =>
    rw [SetCurrentArch_calls_concat, SetCurrentArch_current_arch_eq, ih]
    simp only [List.reverse_append, List.reverse_cons, List.reverse_nil, List.nil_append,
      List.singleton_append, List.findSome?_cons]
    cases specMappedArch s <;> rfl

/-- A run that ends in UNSUPPORTED started in UNSUPPORTED and recognized none
of its strings. -/
theorem SetCurrentArch_calls_UNSUPPORTED (a0 : ArchType) (calls : List String)
    (h : SetCurrentArch_calls a0 calls = ARCH_UNSUPPORTED) :
    a0 = ARCH_UNSUPPORTED ∧ ∀ t ∈ calls, specMappedArch t = none := by
  induction calls generalizing a0 with
  | nil => exact ⟨h, fun t ht => absurd ht (List.not_mem_nil t)⟩
  | cons t rest ih =>
    have h2 : SetCurrentArch_calls (SetCurrentArch a0 t).current_arch rest =
        ARCH_UNSUPPORTED := h
    obtain ⟨hstep, hrest⟩ := ih _ h2
    rw [SetCurrentArch_current_arch_eq] at hstep
    have hnone : specMappedArch t = none := by
      revert hstep
      simp only [specMappedArch]
      split_ifs <;> simp
    rw [hnone] at hstep
    refine ⟨hstep, ?_⟩
    intro u hu
    rcases List.mem_cons.mp hu with e | e
    · rw [e]; exact hnone
    · exact hrest u e

/-- C13: the flag of SetCurrentArch says whether the string is recognized, and
after any list of calls from a0 the architecture is the one mapped from the
last recognized string of the list: if the list is front, s, back with s
mapped to an architecture and no string of back recognized, the result is
that architecture; if no string of the list is recognized, the result is
a0. -/
theorem SetCurrentArch_last_recognized_wins (a0 : ArchType) (calls : List String) :
    (∀ a s, (SetCurrentArch a s).ret = (specMappedArch s).isSome) ∧
    GetCurrentArch (SetCurrentArch_calls a0 calls) =
      (calls.reverse.findSome? specMappedArch).getD a0 ∧
    (∀ (front back : List String) (s : String) (arch : ArchType),
      calls = front ++ s :: back → specMappedArch s = some arch →
      (∀ t ∈ back, specMappedArch t = none) →
      GetCurrentArch (SetCurrentArch_calls a0 calls) = arch) ∧
    ((∀ t ∈ calls, specMappedArch t = none) →
      GetCurrentArch (SetCurrentArch_calls a0 calls) = a0) := by
  refine ⟨SetCurrentArch_ret_eq, SetCurrentArch_calls_eq a0 calls, ?_,
    SetCurrentArch_calls_unrecognized a0 calls⟩
  intro front back s arch hc hs hb
  subst hc
  show SetCurrentArch_calls a0 (front ++ s :: back) = arch
  rw [SetCurrentArch_calls_append]
  show SetCurrentArch_calls (SetCurrentArch (SetCurrentArch_calls a0 front) s).current_arch back
    = arch
  rw [SetCurrentArch_calls_unrecognized _ back hb, SetCurrentArch_current_arch_eq, hs]
  rfl

/-- C13 on the calls "x86", "mips", "aarch64", "riscv" from ARM32 (the last
recognized string is "aarch64"), and on "mips", "" from ARM32. -/
theorem SetCurrentArch_last_recognized_wins_witness :
    GetCurrentArch (SetCurrentArch_calls ARCH_ARM ["x86", "mips", "aarch64", "riscv"]) =
      ARCH_ARM64 ∧
    GetCurrentArch (SetCurrentArch_calls ARCH_ARM ["mips", ""]) = ARCH_ARM :=
  ⟨(SetCurrentArch_last_recognized_wins ARCH_ARM ["x86", "mips", "aarch64", "riscv"]).2.2.1
      ["x86", "mips"] ["riscv"] "aarch64" ARCH_ARM64 rfl (by decide) (by decide),
   (SetCurrentArch_last_recognized_wins ARCH_ARM ["mips", ""]).2.2.2 (by decide)⟩

/-- C19: a call of SetCurrentArch that returns true leaves one of X86_32,
X86_64, ARM32, ARM64; a call from an architecture other than UNSUPPORTED
leaves one other than UNSUPPORTED; and a run of calls from the build
architecture ends in UNSUPPORTED only if the build defines none of the four
targets and every call of the run fails. -/
theorem SetCurrentArch_never_selects_UNSUPPORTED (a : ArchType) (s : String) :
    ((SetCurrentArch a s).ret = true →
      GetCurrentArch (SetCurrentArch a s).current_arch ∈
        [ARCH_X86_32, ARCH_X86_64, ARCH_ARM, ARCH_ARM64]) ∧
    (GetCurrentArch a ≠ ARCH_UNSUPPORTED →
      GetCurrentArch (SetCurrentArch a s).current_arch ≠ ARCH_UNSUPPORTED) ∧
    (∀ (b : BuildTarget) (calls : List String),
      GetCurrentArch (SetCurrentArch_calls (GetBuildArch b) calls) = ARCH_UNSUPPORTED →
      b = BuildTarget.other ∧ GetBuildArch b = ARCH_UNSUPPORTED ∧
      ∀ t ∈ calls, ∀ a1, (SetCurrentArch a1 t).ret = false) := by
  refine ⟨?_, ?_, ?_⟩
  · simp only [SetCurrentArch, GetCurrentArch]
    split_ifs <;> simp
  · simp only [SetCurrentArch, GetCurrentArch]
    split_ifs <;> simp
  · intro b calls h
    obtain ⟨hb, hc⟩ := SetCurrentArch_calls_UNSUPPORTED (GetBuildArch b) calls h
    refine ⟨?_, hb, ?_⟩
    · cases b <;> first | rfl | cases hb
    · intro t ht a1
      rw [SetCurrentArch_ret_eq, hc t ht]
      rfl

/-- C19 at "armv7" from UNSUPPORTED, at "mips" from X86_64, and on the run
"mips", "" of a build that defines no target. -/
theorem SetCurrentArch_never_selects_UNSUPPORTED_witness :
    GetCurrentArch (SetCurrentArch ARCH_UNSUPPORTED "armv7").current_arch ∈
      [ARCH_X86_32, ARCH_X86_64, ARCH_ARM, ARCH_ARM64] ∧
    GetCurrentArch (SetCurrentArch ARCH_X86_64 "mips").current_arch ≠ ARCH_UNSUPPORTED ∧
    (BuildTarget.other = BuildTarget.other ∧
      GetBuildArch BuildTarget.other = ARCH_UNSUPPORTED ∧
      ∀ t ∈ ["mips", ""], ∀ a1, (SetCurrentArch a1 t).ret = false) :=
  ⟨(SetCurrentArch_never_selects_UNSUPPORTED ARCH_UNSUPPORTED "armv7").1 (by decide),
   (SetCurrentArch_never_selects_UNSUPPORTED ARCH_X86_64 "mips").2.1 (by decide),
   (SetCurrentArch_never_selects_UNSUPPORTED ARCH_X86_64 "mips").2.2 BuildTarget.other
      ["mips", ""] (by decide)⟩

/-! ## The mask and the names together -/

/-- A bit that is set in the mask is below the architecture's slot count. -/
theorem lt_max_of_mask_bit (a : ArchType) (i : Nat)
    (hb : (GetSupportedRegMask a).testBit i = true) : i < maxDefinedIndex a := by
  by_contra hge
  have hle : maxDefinedIndex a ≤ i := Nat.le_of_not_lt hge
  have hlt : GetSupportedRegMask a < 2 ^ i := by
    refine lt_of_lt_of_le ?_ (Nat.pow_le_pow_right (by decide) hle)
    cases a <;> decide
  rw [Nat.testBit_lt_two_pow hlt] at hb
  cases hb

/-- An index that `GetRegName` names under an architecture other than
UNSUPPORTED is below the architecture's slot count. -/
theorem lt_max_of_GetRegName_ok (a : ArchType) (i : Nat) (name : String)
    (ha : a ≠ ARCH_UNSUPPORTED) (h : GetRegName a i = .ok name) : i < maxDefinedIndex a := by
  by_contra hge
  obtain ⟨hr, hk⟩ := not_range_not_key_of_max_le a i (Nat.le_of_not_lt hge)
  obtain ⟨f, hf, _⟩ := GetRegName_error_of_unresolved a i ha hr hk
  rw [hf] at h
  cases h

set_option maxRecDepth 100000 in
/-- Below the slot count two indices with the same name are the same index. -/
theorem GetRegName_injective_below_max (a : ArchType) (i j : Nat)
    (hi : i < maxDefinedIndex a) (hj : j < maxDefinedIndex a)
    (h : (GetRegName a i).toOption = (GetRegName a j).toOption) : i = j := by
  cases a
  · exact (by decide : ∀ i < 16, ∀ j < 16,
      (GetRegName ARCH_X86_32 i).toOption = (GetRegName ARCH_X86_32 j).toOption → i = j)
      i hi j hj h
  · exact (by decide : ∀ i < 24, ∀ j < 24,
      (GetRegName ARCH_X86_64 i).toOption = (GetRegName ARCH_X86_64 j).toOption → i = j)
      i hi j hj h
  · exact (by decide : ∀ i < 16, ∀ j < 16,
      (GetRegName ARCH_ARM i).toOption = (GetRegName ARCH_ARM j).toOption → i = j)
      i hi j hj h
  · exact (by decide : ∀ i < 33, ∀ j < 33,
      (GetRegName ARCH_ARM64 i).toOption = (GetRegName ARCH_ARM64 j).toOption → i = j)
      i hi j hj h
  · exact absurd hi (Nat.not_lt_zero i)

/-- C16: under every architecture, for every index i < 64 whose bit is set
in GetSupportedRegMask, GetRegName returns a name and does not fail. -/
theorem GetRegName_ok_of_mask_bit (a : ArchType) (i : Nat) (hi : i < 64)
    (hb : (GetSupportedRegMask a).testBit i = true) :
    (∃ name, GetRegName a i = .ok name) ∧ ∀ f, GetRegName a i ≠ .error f := by
  have _hrange := hi
  obtain ⟨name, hn⟩ := GetRegName_ok_below_max a i (lt_max_of_mask_bit a i hb)
  refine ⟨⟨name, hn⟩, ?_⟩
  intro f hf
  rw [hn] at hf
  cases hf

/-- C16 at the highest set bit of the X86_64 mask (23) and of the ARM64
mask (32). -/
theorem GetRegName_ok_of_mask_bit_witness :
    ((∃ name, GetRegName ARCH_X86_64 23 = .ok name) ∧
      ∀ f, GetRegName ARCH_X86_64 23 ≠ .error f) ∧
    ((∃ name, GetRegName ARCH_ARM64 32 = .ok name) ∧
      ∀ f, GetRegName ARCH_ARM64 32 ≠ .error f) :=
  ⟨GetRegName_ok_of_mask_bit ARCH_X86_64 23 (by decide) (by decide),
   GetRegName_ok_of_mask_bit ARCH_ARM64 32 (by decide) (by decide)⟩

/-- C17: under each of X86_32, X86_64, ARM32, ARM64, two distinct indices on
which GetRegName succeeds get different names. -/
theorem GetRegName_names_distinct (a : ArchType) (i j : Nat) (n m : String)
    (ha : a ≠ ARCH_UNSUPPORTED) (hi : GetRegName a i = .ok n) (hj : GetRegName a j = .ok m)
    (hij : i ≠ j) : n ≠ m ∧ GetRegName a i ≠ GetRegName a j := by
  have hne : n ≠ m := by
    intro e
    apply hij
    apply GetRegName_injective_below_max a i j (lt_max_of_GetRegName_ok a i n ha hi)
      (lt_max_of_GetRegName_ok a j m ha hj)
    rw [hi, hj, e]
  refine ⟨hne, ?_⟩
  rw [hi, hj]
  intro e
  cases e
  exact hne rfl

/-- C17 under X86_64 at SP (7, a table name) and R8 (16, a generated name),
and under ARM64 at X1 and X10. -/
theorem GetRegName_names_distinct_witness :
    ("sp" ≠ "r8" ∧ GetRegName ARCH_X86_64 7 ≠ GetRegName ARCH_X86_64 16) ∧
    ("r1" ≠ "r10" ∧ GetRegName ARCH_ARM64 1 ≠ GetRegName ARCH_ARM64 10) :=
  ⟨GetRegName_names_distinct ARCH_X86_64 7 16 "sp" "r8" (by decide) rfl rfl (by decide),
   GetRegName_names_distinct ARCH_ARM64 1 10 "r1" "r10" (by decide) rfl rfl (by decide)⟩

end PerfRegs
